import Mathlib

/-!
Verification development for the bus-cleaning-control repository.

The data model follows the frontend type declarations
(`frontend/src/types` — `CleaningState`, `CleaningEvent`, `Alert`) and the
backend endpoint `create_event` in `backend/app/api/events.py.bak`.
Timestamps are integer milliseconds; confidences are rationals in [0,1].
The alert-evaluation service (`backend/app/services/alert_service.py`) is not
present in the sources, so its behaviour is modelled from the specification
where noted.
-/

/-- Cleanliness states, from the `CleaningState` enum: clean, dirty, uncertain. -/
inductive CleaningState where
  | clean
  | dirty
  | uncertain
deriving DecidableEq, Repr

/-- Origin tag of an event: edge, server or manual. -/
inductive Origen where
  | edge
  | server
  | manual
deriving DecidableEq, Repr

/-- Alert kinds, from the `Alert` type in the frontend types file:
`repetido` (spec name: repeated_dirty), `muy_sucio` (spec name: very_dirty),
`dudoso_recurrente` (spec name: recurrent_uncertain). -/
inductive AlertTipo where
  | repetido
  | muy_sucio
  | dudoso_recurrente
deriving DecidableEq, Repr

/-- Alert severities: info, warn, critical. -/
inductive AlertNivel where
  | info
  | warn
  | critical
deriving DecidableEq, Repr

/-- A bus record (id, ppu plate, optional alias, active flag). -/
structure Bus where
  id : Nat
  ppu : String
  «alias» : Option String
  activo : Bool
deriving DecidableEq, Repr

/-- A user record (id and display name are the fields the endpoint reads). -/
structure User where
  id : Nat
  nombre : String
deriving DecidableEq, Repr

/-- A stored cleaning (inspection) event, after the `CleaningEvent` model. -/
structure CleaningEvent where
  id : Nat
  bus_id : Nat
  user_id : Nat
  estado : CleaningState
  confidence : Option ℚ
  observaciones : Option String
  imagen_thumb_url : Option String
  origen : Origen
  issues : List String
  created_at : Int
deriving DecidableEq, Repr

/-- A stored alert record, after the `Alert` type. -/
structure Alert where
  id : Nat
  bus_id : Nat
  tipo : AlertTipo
  nivel : AlertNivel
  detalle : String
  created_at : Int
  resolved_by : Option Nat
  resolved_at : Option Int
deriving DecidableEq, Repr

/-- Request body of POST /events (`CleaningEventCreate`): the fields the
endpoint reads off `event_data`; there is no submitter field. -/
structure CleaningEventCreate where
  bus_id : Nat
  estado : CleaningState
  confidence : Option ℚ
  observaciones : Option String
  imagen_thumb_url : Option String
  origen : Origen
  issues : List String
deriving DecidableEq, Repr

/-- Rule-engine configuration (window duration, thresholds, bounds), a runtime
input per the configuration surface of the spec. -/
structure AlertConfig where
  windowMs : Int
  dirtyThreshold : Nat
  uncertainThreshold : Nat
  highConfidence : ℚ
  minIssues : Nat
deriving DecidableEq, Repr

/-- The documented default configuration: 72h window, dirty threshold 2,
uncertain threshold 3, high-confidence bound 0.65, minimum issue count 2. -/
def defaultConfig : AlertConfig :=
  { windowMs := 72 * 3600 * 1000
  , dirtyThreshold := 2
  , uncertainThreshold := 3
  , highConfidence := mkRat 65 100
  , minIssues := 2 }

/-- Modelled from the spec: the trailing rule-evaluation window over the event
log (`alert_service` is absent from the sources). Events of the given bus whose
creation timestamp lies in the strict half-open interval (now − window, now]. -/
def windowEvents (events : List CleaningEvent) (busId : Nat) (now windowMs : Int) :
    List CleaningEvent :=
  events.filter fun ev =>
    decide (ev.bus_id = busId) && decide (now - windowMs < ev.created_at) &&
      decide (ev.created_at ≤ now)

/-- Whether an event's confidence is present and at least the configured
high-confidence bound. -/
def confOk (cfg : AlertConfig) (e : CleaningEvent) : Bool :=
  match e.confidence with
  | some c => decide (cfg.highConfidence ≤ c)
  | none => false

/-- The very-dirty rule condition: current event dirty, confidence at least the
bound, detected-issue count at least the configured minimum. -/
def veryDirtyCond (cfg : AlertConfig) (e : CleaningEvent) : Bool :=
  decide (e.estado = CleaningState.dirty) && confOk cfg e &&
    decide (cfg.minIssues ≤ e.issues.length)

/-- A proposed alert produced by the rule engine, before deduplication. -/
structure Proposal where
  tipo : AlertTipo
  nivel : AlertNivel
  detalle : String
deriving DecidableEq, Repr

/-- Modelled from the spec: the three independent rules of the Rule Engine
(`alert_service` is absent from the sources), each yielding at most one
proposal per invocation: repeated-dirty (warn), very-dirty (critical),
recurrent-uncertain (info). -/
def ruleProposals (cfg : AlertConfig) (events : List CleaningEvent) (busId : Nat)
    (e : CleaningEvent) (now : Int) : List Proposal :=
  let win := windowEvents events busId now cfg.windowMs
  let p1 : List Proposal :=
    if cfg.dirtyThreshold ≤ win.countP (fun ev => decide (ev.estado = CleaningState.dirty)) then
      [⟨AlertTipo.repetido, AlertNivel.warn, "Bus con eventos sucios repetidos"⟩]
    else []
  let p2 : List Proposal :=
    if veryDirtyCond cfg e then
      [⟨AlertTipo.muy_sucio, AlertNivel.critical, "Bus muy sucio con alta confianza"⟩]
    else []
  let p3 : List Proposal :=
    if cfg.uncertainThreshold ≤
        win.countP (fun ev => decide (ev.estado = CleaningState.uncertain)) then
      [⟨AlertTipo.dudoso_recurrente, AlertNivel.info, "Eventos dudosos recurrentes"⟩]
    else []
  p1 ++ p2 ++ p3

/-- Predicate picking out unresolved alerts of a given bus and kind. -/
def isUnresolvedFor (b : Nat) (t : AlertTipo) (a : Alert) : Bool :=
  decide (a.bus_id = b) && decide (a.tipo = t) && a.resolved_at.isNone

/-- Modelled from the spec: the Alert Store query "is there an unresolved alert
of kind t for bus b". -/
def hasUnresolved (alerts : List Alert) (b : Nat) (t : AlertTipo) : Bool :=
  alerts.any (isUnresolvedFor b t)

/-- Number of unresolved alerts of a given bus and kind in the store. -/
def unresolvedCount (alerts : List Alert) (b : Nat) (t : AlertTipo) : Nat :=
  alerts.countP (isUnresolvedFor b t)

/-- Modelled from the spec: persist each proposal unless an unresolved alert of
the same kind for the bus already exists (deduplication). Returns the newly
created alerts, the updated store, and the next fresh id. -/
def applyProposals (busId : Nat) (now : Int) :
    List Proposal → List Alert → Nat → List Alert × List Alert × Nat
  | [], alerts, nid => ([], alerts, nid)
  | p :: ps, alerts, nid =>
    if hasUnresolved alerts busId p.tipo then
      applyProposals busId now ps alerts nid
    else
      let a : Alert :=
        ⟨nid, busId, p.tipo, p.nivel, p.detalle, now, none, none⟩
      let r := applyProposals busId now ps (alerts ++ [a]) (nid + 1)
      (a :: r.1, r.2.1, r.2.2)

/-- Modelled from the spec: `alert_service.check_and_create_alerts` — evaluate
the rules on fresh history (including the just-appended event) and persist the
non-suppressed proposals. -/
def checkAndCreateAlerts (cfg : AlertConfig) (events : List CleaningEvent)
    (alerts : List Alert) (nid : Nat) (busId : Nat) (e : CleaningEvent) (now : Int) :
    List Alert × List Alert × Nat :=
  applyProposals busId now (ruleProposals cfg events busId e now) alerts nid

/-- Errors that abort a submission; `create_event` raises HTTP 404 when the
referenced bus is absent. -/
inductive CreateError where
  | notFound
deriving DecidableEq, Repr

/-- HTTP status code attached to each submission error. -/
def statusCode : CreateError → Nat
  | CreateError.notFound => 404

/-- WebSocket notification payloads built by `create_event`: the
`event.created` message (event id, bus reference, bus label, submitter label,
state, confidence, timestamp) and the `alert.created` message (alert id, bus
reference, bus label, kind, severity, detail), two variants of one tagged
type. -/
inductive Notification where
  | eventCreated (id : Nat) (bus_id : Nat) (bus_ppu : String) (user_nombre : String)
      (estado : CleaningState) (confidence : Option ℚ) (created_at : Int)
  | alertCreated (id : Nat) (bus_id : Nat) (bus_ppu : String) (tipo : AlertTipo)
      (nivel : AlertNivel) (detalle : String)
deriving DecidableEq, Repr

/-- The `event.created` payload for a stored event, as built in
`create_event`. -/
def eventMsg (e : CleaningEvent) (busPpu userNombre : String) : Notification :=
  Notification.eventCreated e.id e.bus_id busPpu userNombre e.estado e.confidence e.created_at

/-- The `alert.created` payload for a stored alert, as built in
`create_event`. -/
def alertMsg (a : Alert) (busPpu : String) : Notification :=
  Notification.alertCreated a.id a.bus_id busPpu a.tipo a.nivel a.detalle

/-- Observable side effects of one submission, in program order. -/
inductive Effect where
  | persistEvent (e : CleaningEvent)
  | persistAlert (a : Alert)
  | broadcastMsg (m : Notification)
  | logError (msg : String)
deriving DecidableEq, Repr

/-- Stored system state: bus table, event log, alert store, fresh-id counters
and the server clock (integer milliseconds). -/
structure SysState where
  buses : List Bus
  events : List CleaningEvent
  alerts : List Alert
  nextEventId : Nat
  nextAlertId : Nat
  now : Int
deriving DecidableEq, Repr

/-- One inbound submission: the request body, the authenticated user, and two
fault switches making the advisory stages raise (the WebSocket manager failing,
and `check_and_create_alerts` failing). -/
structure Submission where
  data : CleaningEventCreate
  user : User
  wsFails : Bool
  alertsFail : Bool
deriving DecidableEq, Repr

/-- Outcome of one submission: the HTTP result, the alerts newly created by the
advisory stage, the post-state, and the trace of observable actions. -/
structure RunOutput where
  result : Except CreateError CleaningEvent
  newAlerts : List Alert
  state : SysState
  trace : List Effect
deriving Repr

/-- The event row inserted by `create_event`: every field copied from the
request body except the submitter, which is the authenticated user's id, and
the server-assigned id and timestamp. -/
def mkNewEvent (st : SysState) (d : CleaningEventCreate) (u : User) : CleaningEvent :=
  { id := st.nextEventId
  , bus_id := d.bus_id
  , user_id := u.id
  , estado := d.estado
  , confidence := d.confidence
  , observaciones := d.observaciones
  , imagen_thumb_url := d.imagen_thumb_url
  , origen := d.origen
  , issues := d.issues
  , created_at := st.now }

/-- The POST /events endpoint `create_event`, in program order: resolve the
bus (404 if absent); insert and commit the event; a first try/except block
broadcasting `event.created` (a failure is printed and swallowed); a second
try/except block running `check_and_create_alerts` and then broadcasting one
`alert.created` per created alert (a failure anywhere in it is printed and
swallowed); return the stored event. -/
def createEvent (cfg : AlertConfig) (st : SysState) (sub : Submission) : RunOutput :=
  match st.buses.find? (fun b => decide (b.id = sub.data.bus_id)) with
  | none => ⟨Except.error CreateError.notFound, [], st, []⟩
  | some bus =>
    let ev := mkNewEvent st sub.data sub.user
    let st1 : SysState :=
      { st with events := st.events ++ [ev], nextEventId := st.nextEventId + 1
              , now := st.now + 1 }
    let tr1 : List Effect :=
      [Effect.persistEvent ev] ++
        (if sub.wsFails then [Effect.logError "Error broadcasting event"]
         else [Effect.broadcastMsg (eventMsg ev bus.ppu sub.user.nombre)])
    if sub.alertsFail then
      ⟨Except.ok ev, [], st1, tr1 ++ [Effect.logError "Error checking alerts"]⟩
    else
      let r := checkAndCreateAlerts cfg st1.events st.alerts st.nextAlertId bus.id ev st.now
      let st2 : SysState := { st1 with alerts := r.2.1, nextAlertId := r.2.2 }
      let tr2 := tr1 ++ r.1.map Effect.persistAlert ++
        (if sub.wsFails then
           (if r.1.isEmpty then [] else [Effect.logError "Error checking alerts"])
         else r.1.map (fun a => Effect.broadcastMsg (alertMsg a bus.ppu)))
      ⟨Except.ok ev, r.1, st2, tr2⟩

/-- Ingest a sequence of submissions, threading the state. -/
def ingestAll (cfg : AlertConfig) : SysState → List Submission → SysState
  | st, [] => st
  | st, sub :: rest => ingestAll cfg (createEvent cfg st sub).state rest

/-- Look an event up by id in the store, as GET /events/id does. -/
def findEvent (st : SysState) (eid : Nat) : Option CleaningEvent :=
  st.events.find? (fun e => decide (e.id = eid))

/-- Whether the first list occurs as a prefix of the second. -/
def isPrefList : List Char → List Char → Bool
  | [], _ => true
  | _ :: _, [] => false
  | a :: as, b :: bs => a == b && isPrefList as bs

/-- Whether the first list occurs as a contiguous run inside the second. -/
def subOf (n : List Char) : List Char → Bool
  | [] => isPrefList n []
  | c :: cs => isPrefList n (c :: cs) || subOf n cs

/-- Substring test used to mirror Python's `in` on strings. -/
def strHas (hay needle : String) : Bool :=
  subOf needle.toList hay.toList

/-- The suggestion `_generate_suggestions` appends for one detected issue: the
if/elif keyword chain over the lower-cased issue text, with the generic
final else branch. -/
def suggestionFor (issue : String) : String :=
  let l := issue.toLower
  if strHas l "papel" || strHas l "basura" then
    "Recoger y desechar basura del piso y asientos"
  else if strHas l "ventana" || strHas l "cristal" then
    "Limpiar ventanas con pano y limpiador de cristales"
  else if strHas l "mancha" then
    "Aplicar limpiador y frotar manchas con pano"
  else if strHas l "polvo" then
    "Pasar pano seco o aspirar superficies con polvo"
  else if strHas l "pasamano" then
    "Limpiar pasamanos con desinfectante"
  else
    "Revisar y limpiar area afectada"

/-- `_generate_suggestions`: one suggestion appended per detected issue, and
the single general suggestion when the accumulated list is empty. -/
def generateSuggestions (issues : List String) : List String :=
  let suggestions := issues.map suggestionFor
  if suggestions.isEmpty then ["Realizar limpieza general del bus"] else suggestions

/-- Response of POST /ai/analyze. -/
structure AnalysisResult where
  estado : CleaningState
  confidence : ℚ
  issues : List String
  suggestions : List String
deriving DecidableEq, Repr

/-- The /ai/analyze endpoint `analyze_image` on its success path: run the
(opaque) classifier, then attach the generated suggestions. -/
def analyzeImage (classify : String → CleaningState × ℚ × List String)
    (imageB64 : String) : AnalysisResult :=
  let r := classify imageB64
  ⟨r.1, r.2.1, r.2.2, generateSuggestions r.2.2⟩

/-- A one-bus fixture used to evaluate the model on concrete inputs. -/
def demoState : SysState :=
  { buses := [⟨1, "AB-1234", none, true⟩]
  , events := []
  , alerts := []
  , nextEventId := 1
  , nextAlertId := 1
  , now := 1000000 }

/-- A concrete dirty submission with high confidence and two issues. -/
def demoSub : Submission :=
  { data :=
      { bus_id := 1
      , estado := CleaningState.dirty
      , confidence := some (mkRat 8 10)
      , observaciones := none
      , imagen_thumb_url := none
      , origen := Origen.manual
      , issues := ["papel en el piso", "mancha en asiento"] }
  , user := ⟨7, "Juan"⟩
  , wsFails := false
  , alertsFail := false }

/-- The same submission aimed at a bus id that is not in the fixture. -/
def demoSubMissingBus : Submission :=
  { demoSub with data := { demoSub.data with bus_id := 99 } }

/-- C4: if the referenced bus does not exist, `create_event` fails with
NotFound (HTTP 404) and nothing downstream runs: no event stored, no alert
created, no broadcast, state unchanged. -/
theorem c4_missing_bus_fails_fast (cfg : AlertConfig) (st : SysState) (sub : Submission)
    (h : st.buses.find? (fun b => decide (b.id = sub.data.bus_id)) = none) :
    (createEvent cfg st sub).result = Except.error CreateError.notFound ∧
    statusCode CreateError.notFound = 404 ∧
    (createEvent cfg st sub).state = st ∧
    (createEvent cfg st sub).trace = [] ∧
    (createEvent cfg st sub).newAlerts = [] := by
  simp [createEvent, h, statusCode]

/-- Witness for C4 at the one-bus fixture and a submission naming bus 99. -/
theorem c4_missing_bus_fails_fast_witness :
    (createEvent defaultConfig demoState demoSubMissingBus).result
        = Except.error CreateError.notFound ∧
    statusCode CreateError.notFound = 404 ∧
    (createEvent defaultConfig demoState demoSubMissingBus).state = demoState ∧
    (createEvent defaultConfig demoState demoSubMissingBus).trace = [] ∧
    (createEvent defaultConfig demoState demoSubMissingBus).newAlerts = [] :=
  c4_missing_bus_fails_fast defaultConfig demoState demoSubMissingBus (by decide)

/-- C10: the stored submitter reference of every successfully created event is
the authenticated user's id; no request-body field can set it. -/
theorem c10_submitter_is_authenticated_user (cfg : AlertConfig) (st : SysState)
    (sub : Submission) (ev : CleaningEvent)
    (h : (createEvent cfg st sub).result = Except.ok ev) :
    ev.user_id = sub.user.id := by
  cases hfind : st.buses.find? (fun b => decide (b.id = sub.data.bus_id)) with
  | none => simp [createEvent, hfind] at h
  | some bus =>
    by_cases ha : sub.alertsFail <;>
      simp [createEvent, hfind, ha] at h <;>
      simp [← h, mkNewEvent]

/-- Witness for C10 at the fixture submission. -/
theorem c10_submitter_is_authenticated_user_witness :
    (mkNewEvent demoState demoSub.data demoSub.user).user_id = demoSub.user.id :=
  c10_submitter_is_authenticated_user defaultConfig demoState demoSub
    (mkNewEvent demoState demoSub.data demoSub.user) (by rfl)

/-- C8: every alert's kind is one of the three values repetido (repeated_dirty),
muy_sucio (very_dirty), dudoso_recurrente (recurrent_uncertain), and its
severity is one of info, warn, critical. -/
theorem c8_alert_vocabularies (a : Alert) :
    (a.tipo = AlertTipo.repetido ∨ a.tipo = AlertTipo.muy_sucio ∨
      a.tipo = AlertTipo.dudoso_recurrente) ∧
    (a.nivel = AlertNivel.info ∨ a.nivel = AlertNivel.warn ∨
      a.nivel = AlertNivel.critical) := by
  constructor
  · cases a.tipo <;> simp
  · cases a.nivel <;> simp

/-- C9: `_generate_suggestions` always returns a non-empty list — one
suggestion per issue when issues are present, the single general suggestion
otherwise — so every successful /ai/analyze response has a suggestion. -/
theorem c9_suggestions_nonempty (issues : List String) :
    generateSuggestions issues ≠ [] ∧
    (issues ≠ [] → (generateSuggestions issues).length = issues.length) ∧
    (issues = [] → generateSuggestions issues = ["Realizar limpieza general del bus"]) ∧
    (∀ (classify : String → CleaningState × ℚ × List String) (img : String),
      (analyzeImage classify img).suggestions ≠ []) := by
  refine ⟨?_, ?_, ?_, ?_⟩
  · cases issues with
    | nil => simp [generateSuggestions]
    | cons a as => simp [generateSuggestions]
  · intro h
    cases issues with
    | nil => cases h rfl
    | cons a as => simp [generateSuggestions]
  · intro h
    subst h
    simp [generateSuggestions]
  · intro classify img
    simp only [analyzeImage]
    cases (classify img).2.2 with
    | nil => simp [generateSuggestions]
    | cons a as => simp [generateSuggestions]

/-- Witness for C9 on a one-issue list and on the empty list. -/
theorem c9_suggestions_nonempty_witness :
    (generateSuggestions ["papel en el piso"]).length = 1 ∧
    generateSuggestions [] = ["Realizar limpieza general del bus"] :=
  ⟨(c9_suggestions_nonempty ["papel en el piso"]).2.1 (by decide),
   (c9_suggestions_nonempty []).2.2.1 rfl⟩

/-- C5: the rule-evaluation window is the strict half-open interval
(now − window, now]: an event exactly at now − window is excluded, one at
now − window + 1ms is included. -/
theorem c5_window_half_open (events : List CleaningEvent) (busId : Nat)
    (now w : Int) (e : CleaningEvent) (hw : 0 < w) :
    (e.created_at = now - w → e ∉ windowEvents events busId now w) ∧
    (e ∈ events → e.bus_id = busId → e.created_at = now - w + 1 →
      e ∈ windowEvents events busId now w) := by
  constructor
  · intro ht hmem
    rcases List.mem_filter.mp hmem with ⟨-, hp⟩
    simp only [Bool.and_eq_true, decide_eq_true_eq] at hp
    omega
  · intro hmem hb ht
    refine List.mem_filter.mpr ⟨hmem, ?_⟩
    simp only [Bool.and_eq_true, decide_eq_true_eq]
    refine ⟨⟨hb, ?_⟩, ?_⟩ <;> omega

/-- An event of the fixture bus lying exactly at the lower window boundary. -/
def demoEvAtBound : CleaningEvent :=
  { id := 1, bus_id := 1, user_id := 7, estado := CleaningState.dirty
  , confidence := none, observaciones := none, imagen_thumb_url := none
  , origen := Origen.manual, issues := []
  , created_at := 1000000 - defaultConfig.windowMs }

/-- An event of the fixture bus one millisecond inside the window. -/
def demoEvInside : CleaningEvent :=
  { demoEvAtBound with id := 2, created_at := 1000000 - defaultConfig.windowMs + 1 }

/-- Witness for C5 at the two boundary events. -/
theorem c5_window_half_open_witness :
    demoEvAtBound ∉
      windowEvents [demoEvAtBound, demoEvInside] 1 1000000 defaultConfig.windowMs ∧
    demoEvInside ∈
      windowEvents [demoEvAtBound, demoEvInside] 1 1000000 defaultConfig.windowMs :=
  ⟨(c5_window_half_open [demoEvAtBound, demoEvInside] 1 1000000 defaultConfig.windowMs
      demoEvAtBound (by decide)).1 rfl,
   (c5_window_half_open [demoEvAtBound, demoEvInside] 1 1000000 defaultConfig.windowMs
      demoEvInside (by decide)).2 (by decide) rfl rfl⟩

/-- The muy_sucio count contributed by the rule engine equals 1 exactly when
the very-dirty condition holds. -/
lemma countP_muySucio_ruleProposals (cfg : AlertConfig) (events : List CleaningEvent)
    (busId : Nat) (e : CleaningEvent) (now : Int) :
    (ruleProposals cfg events busId e now).countP
        (fun p => decide (p.tipo = AlertTipo.muy_sucio)) =
      if veryDirtyCond cfg e then 1 else 0 := by
  simp only [ruleProposals, List.countP_append]
  split_ifs <;> simp [List.countP_cons]

/-- Any muy_sucio proposal of the rule engine carries severity critical. -/
lemma muySucio_proposal_critical (cfg : AlertConfig) (events : List CleaningEvent)
    (busId : Nat) (e : CleaningEvent) (now : Int) (p : Proposal)
    (hp : p ∈ ruleProposals cfg events busId e now)
    (ht : p.tipo = AlertTipo.muy_sucio) : p.nivel = AlertNivel.critical := by
  simp only [ruleProposals, List.mem_append] at hp
  rcases hp with (h | h) | h <;> split at h <;> simp at h <;> subst h <;>
    first
      | rfl
      | exact absurd ht (by decide)

/-- C6: a dirty event with confidence at least the configured high-confidence
bound (default 0.65) and at least 2 detected issues yields exactly one
very_dirty (muy_sucio) proposal, with severity critical; with confidence below
the bound it yields none. -/
theorem c6_very_dirty_rule (cfg : AlertConfig) (events : List CleaningEvent)
    (busId : Nat) (e : CleaningEvent) (now : Int) :
    (∀ c : ℚ, e.estado = CleaningState.dirty → e.confidence = some c →
      cfg.highConfidence ≤ c → cfg.minIssues ≤ e.issues.length →
      (ruleProposals cfg events busId e now).countP
          (fun p => decide (p.tipo = AlertTipo.muy_sucio)) = 1 ∧
      ∀ p ∈ ruleProposals cfg events busId e now,
        p.tipo = AlertTipo.muy_sucio → p.nivel = AlertNivel.critical) ∧
    (∀ c : ℚ, e.confidence = some c → c < cfg.highConfidence →
      (ruleProposals cfg events busId e now).countP
        (fun p => decide (p.tipo = AlertTipo.muy_sucio)) = 0) ∧
    defaultConfig.highConfidence = (65 : ℚ) / 100 ∧ defaultConfig.minIssues = 2 := by
  refine ⟨?_, ?_, by norm_num [defaultConfig, Rat.mkRat_eq_div], rfl⟩
  · intro c hdirty hconf hge hiss
    have hcond : veryDirtyCond cfg e = true := by
      simp [veryDirtyCond, confOk, hdirty, hconf, hge, hiss]
    refine ⟨?_, fun p hp ht => muySucio_proposal_critical cfg events busId e now p hp ht⟩
    rw [countP_muySucio_ruleProposals, hcond]
    rfl
  · intro c hconf hlt
    have hcond : veryDirtyCond cfg e = false := by
      simp [veryDirtyCond, confOk, hconf, not_le.mpr hlt]
    rw [countP_muySucio_ruleProposals, hcond]
    rfl

/-- The fixture event as stored: dirty, confidence 0.8, two issues. -/
def demoEv : CleaningEvent := mkNewEvent demoState demoSub.data demoSub.user

/-- The fixture event with confidence lowered to 0.5. -/
def demoEvLowConf : CleaningEvent := { demoEv with confidence := some (mkRat 5 10) }

/-- Witness for C6: the 0.8-confidence event proposes one muy_sucio alert, the
0.5-confidence one proposes none. -/
theorem c6_very_dirty_rule_witness :
    (ruleProposals defaultConfig [demoEv] 1 demoEv 1000000).countP
        (fun p => decide (p.tipo = AlertTipo.muy_sucio)) = 1 ∧
    (ruleProposals defaultConfig [demoEvLowConf] 1 demoEvLowConf 1000000).countP
        (fun p => decide (p.tipo = AlertTipo.muy_sucio)) = 0 :=
  ⟨((c6_very_dirty_rule defaultConfig [demoEv] 1 demoEv 1000000).1 (mkRat 8 10)
      rfl rfl (by decide) (by decide)).1,
   (c6_very_dirty_rule defaultConfig [demoEvLowConf] 1 demoEvLowConf 1000000).2.1
      (mkRat 5 10) rfl (by decide)⟩

/-- C2: once the event append has committed, a fault in the broadcast stage or
the alert stage is caught and logged and never propagated: `create_event`
still returns the persisted event, which remains stored and retrievable. -/
theorem c2_advisory_faults_swallowed (cfg : AlertConfig) (st : SysState)
    (sub : Submission) (bus : Bus)
    (hbus : st.buses.find? (fun b => decide (b.id = sub.data.bus_id)) = some bus) :
    (createEvent cfg st sub).result = Except.ok (mkNewEvent st sub.data sub.user) ∧
    mkNewEvent st sub.data sub.user ∈ (createEvent cfg st sub).state.events ∧
    (sub.wsFails = true →
      Effect.logError "Error broadcasting event" ∈ (createEvent cfg st sub).trace) ∧
    (sub.alertsFail = true →
      Effect.logError "Error checking alerts" ∈ (createEvent cfg st sub).trace) ∧
    ((∀ e ∈ st.events, e.id ≠ st.nextEventId) →
      findEvent (createEvent cfg st sub).state st.nextEventId
        = some (mkNewEvent st sub.data sub.user)) := by
  by_cases ha : sub.alertsFail <;> by_cases hw : sub.wsFails <;>
    refine ⟨by simp [createEvent, hbus, ha, hw], ?_, ?_, ?_, ?_⟩ <;>
    simp [createEvent, hbus, ha, hw, findEvent, checkAndCreateAlerts] <;>
    intro hfresh <;>
    exact Or.inr ⟨hfresh, rfl⟩

/-- The fixture submission with both advisory stages failing. -/
def demoSubFaulty : Submission := { demoSub with wsFails := true, alertsFail := true }

/-- Witness for C2: with both advisory faults raised, the event is returned,
stored, and both errors are logged. -/
theorem c2_advisory_faults_swallowed_witness :
    (createEvent defaultConfig demoState demoSubFaulty).result
        = Except.ok (mkNewEvent demoState demoSubFaulty.data demoSubFaulty.user) ∧
    mkNewEvent demoState demoSubFaulty.data demoSubFaulty.user
        ∈ (createEvent defaultConfig demoState demoSubFaulty).state.events ∧
    Effect.logError "Error broadcasting event"
        ∈ (createEvent defaultConfig demoState demoSubFaulty).trace ∧
    Effect.logError "Error checking alerts"
        ∈ (createEvent defaultConfig demoState demoSubFaulty).trace ∧
    findEvent (createEvent defaultConfig demoState demoSubFaulty).state
        demoState.nextEventId
      = some (mkNewEvent demoState demoSubFaulty.data demoSubFaulty.user) :=
  ⟨(c2_advisory_faults_swallowed defaultConfig demoState demoSubFaulty
      ⟨1, "AB-1234", none, true⟩ rfl).1,
   (c2_advisory_faults_swallowed defaultConfig demoState demoSubFaulty
      ⟨1, "AB-1234", none, true⟩ rfl).2.1,
   (c2_advisory_faults_swallowed defaultConfig demoState demoSubFaulty
      ⟨1, "AB-1234", none, true⟩ rfl).2.2.1 rfl,
   (c2_advisory_faults_swallowed defaultConfig demoState demoSubFaulty
      ⟨1, "AB-1234", none, true⟩ rfl).2.2.2.1 rfl,
   (c2_advisory_faults_swallowed defaultConfig demoState demoSubFaulty
      ⟨1, "AB-1234", none, true⟩ rfl).2.2.2.2 (by simp [demoState])⟩

/-- Whether an effect is a WebSocket broadcast. -/
def isBroadcast : Effect → Bool
  | Effect.broadcastMsg _ => true
  | _ => false

/-- Whether an effect persists an alert. -/
def isPersistAlert : Effect → Bool
  | Effect.persistAlert _ => true
  | _ => false

/-- Whether some broadcast occurs strictly before some alert persistence in a
trace. -/
def broadcastBeforeAlertPersist : List Effect → Bool
  | [] => false
  | a :: rest =>
    (isBroadcast a && rest.any isPersistAlert) || broadcastBeforeAlertPersist rest

/-- C3 counterexample: in the fixture run — which persists one alert — a
broadcast (the `event.created` message) occurs strictly before the alert
persistence, so `create_event` does emit a broadcast before alert evaluation
and persistence have completed, contrary to the claimed stage order. -/
theorem c3_counterexample_broadcast_precedes_alerts :
    broadcastBeforeAlertPersist (createEvent defaultConfig demoState demoSub).trace
        = true ∧
    (createEvent defaultConfig demoState demoSub).newAlerts ≠ [] := by
  constructor <;> decide

/-- C3 (amended): within a fault-free submission the stages run sequentially
as: validate, persist the event, broadcast `event.created`, evaluate the Rule
Engine and persist each non-suppressed alert, and then broadcast one
`alert.created` per newly persisted alert. -/
theorem c3_stage_order (cfg : AlertConfig) (st : SysState) (sub : Submission)
    (bus : Bus)
    (hbus : st.buses.find? (fun b => decide (b.id = sub.data.bus_id)) = some bus)
    (hws : sub.wsFails = false) (hal : sub.alertsFail = false) :
    (createEvent cfg st sub).trace =
      [Effect.persistEvent (mkNewEvent st sub.data sub.user),
       Effect.broadcastMsg
         (eventMsg (mkNewEvent st sub.data sub.user) bus.ppu sub.user.nombre)]
      ++ (createEvent cfg st sub).newAlerts.map Effect.persistAlert
      ++ (createEvent cfg st sub).newAlerts.map
          (fun a => Effect.broadcastMsg (alertMsg a bus.ppu)) := by
  simp [createEvent, hbus, hws, hal]

/-- Witness for C3 (amended) at the fixture run. -/
theorem c3_stage_order_witness :
    (createEvent defaultConfig demoState demoSub).trace =
      [Effect.persistEvent (mkNewEvent demoState demoSub.data demoSub.user),
       Effect.broadcastMsg
         (eventMsg (mkNewEvent demoState demoSub.data demoSub.user) "AB-1234"
           demoSub.user.nombre)]
      ++ (createEvent defaultConfig demoState demoSub).newAlerts.map Effect.persistAlert
      ++ (createEvent defaultConfig demoState demoSub).newAlerts.map
          (fun a => Effect.broadcastMsg (alertMsg a "AB-1234")) :=
  c3_stage_order defaultConfig demoState demoSub ⟨1, "AB-1234", none, true⟩ rfl rfl rfl

/-- A broadcast effect never occurs in the swallowed-error placeholder list. -/
lemma broadcast_not_mem_ite_log (m : Notification) (c : Bool) (s : String) :
    Effect.broadcastMsg m ∈ (if c = true then ([] : List Effect) else [Effect.logError s])
      ↔ False := by
  split <;> simp

/-- C7: every broadcast of a submission is either the `event.created` payload
of the stored event (event id, bus reference, bus label, submitter label,
state, confidence, timestamp) or the `alert.created` payload of a newly
persisted alert (alert id, bus reference, bus label, kind, severity, detail),
and the two payload shapes are distinct variants of the tagged notification
type. -/
theorem c7_notification_shapes (cfg : AlertConfig) (st : SysState) (sub : Submission)
    (bus : Bus)
    (hbus : st.buses.find? (fun b => decide (b.id = sub.data.bus_id)) = some bus) :
    (∀ m : Notification, Effect.broadcastMsg m ∈ (createEvent cfg st sub).trace →
      m = eventMsg (mkNewEvent st sub.data sub.user) bus.ppu sub.user.nombre ∨
      ∃ a ∈ (createEvent cfg st sub).newAlerts, m = alertMsg a bus.ppu) ∧
    (∀ (i b : Nat) (pp un : String) (es : CleaningState) (cf : Option ℚ) (ts : Int)
        (i2 b2 : Nat) (pp2 : String) (tp : AlertTipo) (nv : AlertNivel) (dt : String),
      Notification.eventCreated i b pp un es cf ts ≠
        Notification.alertCreated i2 b2 pp2 tp nv dt) := by
  constructor
  · intro m hm
    by_cases ha : sub.alertsFail
    · by_cases hw : sub.wsFails
      · simp [createEvent, hbus, ha, hw] at hm
      · simp [createEvent, hbus, ha, hw] at hm ⊢
        exact hm
    · by_cases hw : sub.wsFails
      · simp [createEvent, hbus, ha, hw, broadcast_not_mem_ite_log] at hm
      · simp [createEvent, hbus, ha, hw] at hm ⊢
        rcases hm with h | ⟨a, hmem, h⟩
        · exact Or.inl h
        · exact Or.inr ⟨a, hmem, h.symm⟩
  · intro i b pp un es cf ts i2 b2 pp2 tp nv dt h
    cases h

/-- Witness for C7: the two payload shapes are distinct at concrete field
values taken from the fixture run. -/
theorem c7_notification_shapes_witness :
    Notification.eventCreated 1 1 "AB-1234" "Juan" CleaningState.dirty none 1000000 ≠
      Notification.alertCreated 1 1 "AB-1234" AlertTipo.muy_sucio AlertNivel.critical
        "Bus muy sucio con alta confianza" :=
  (c7_notification_shapes defaultConfig demoState demoSub ⟨1, "AB-1234", none, true⟩
      rfl).2 1 1 "AB-1234" "Juan" CleaningState.dirty none 1000000
    1 1 "AB-1234" AlertTipo.muy_sucio AlertNivel.critical "Bus muy sucio con alta confianza"

/-- The deduplication invariant: for every bus and kind, at most one
unresolved alert exists in the store. -/
def dedupInv (alerts : List Alert) : Prop :=
  ∀ (b : Nat) (t : AlertTipo), unresolvedCount alerts b t ≤ 1

/-- countP of a singleton list. -/
lemma countP_singleton {α : Type} (p : α → Bool) (a : α) :
    List.countP p [a] = if p a then 1 else 0 := by
  simp [List.countP_cons]

/-- When the store holds no unresolved alert of a kind for a bus, its
unresolved count for that pair is zero. -/
lemma hasUnresolved_false_count (alerts : List Alert) (b : Nat) (t : AlertTipo)
    (h : hasUnresolved alerts b t = false) : unresolvedCount alerts b t = 0 := by
  simp only [hasUnresolved, List.any_eq_false] at h
  exact List.countP_eq_zero.mpr h

/-- Inserting an alert of a kind with no outstanding unresolved alert keeps
the invariant. -/
lemma dedupInv_insert (alerts : List Alert) (busId : Nat) (p : Proposal)
    (nid : Nat) (now : Int) (h : dedupInv alerts)
    (hno : hasUnresolved alerts busId p.tipo = false) :
    dedupInv (alerts ++ [⟨nid, busId, p.tipo, p.nivel, p.detalle, now, none, none⟩]) := by
  intro b t
  have hc := h b t
  simp only [unresolvedCount, List.countP_append, countP_singleton] at *
  by_cases hmatch :
      isUnresolvedFor b t ⟨nid, busId, p.tipo, p.nivel, p.detalle, now, none, none⟩ = true
  · have hbt : busId = b ∧ p.tipo = t := by
      simpa [isUnresolvedFor] using hmatch
    obtain ⟨hb, ht⟩ := hbt
    subst hb
    subst ht
    have h0 := hasUnresolved_false_count alerts busId p.tipo hno
    simp only [unresolvedCount] at h0
    simp [hmatch, h0]
  · simp only [Bool.not_eq_true] at hmatch
    simpa [hmatch] using hc

/-- The deduplicating persistence loop keeps the invariant. -/
lemma applyProposals_dedupInv (busId : Nat) (now : Int) (ps : List Proposal) :
    ∀ (alerts : List Alert) (nid : Nat), dedupInv alerts →
      dedupInv (applyProposals busId now ps alerts nid).2.1 := by
  induction ps with
  | nil =>
    intro alerts nid h
    simpa [applyProposals] using h
  | cons p ps ih =>
    intro alerts nid h
    by_cases hd : hasUnresolved alerts busId p.tipo
    · simpa [applyProposals, hd] using ih alerts nid h
    · have hd2 : hasUnresolved alerts busId p.tipo = false := by
        simpa using hd
      have h2 := dedupInv_insert alerts busId p nid now h hd2
      simpa [applyProposals, hd] using ih _ _ h2

/-- One submission through `create_event` keeps the invariant. -/
lemma createEvent_dedupInv (cfg : AlertConfig) (st : SysState) (sub : Submission)
    (h : dedupInv st.alerts) : dedupInv (createEvent cfg st sub).state.alerts := by
  cases hfind : st.buses.find? (fun b => decide (b.id = sub.data.bus_id)) with
  | none => simpa [createEvent, hfind] using h
  | some bus =>
    by_cases ha : sub.alertsFail
    · simpa [createEvent, hfind, ha] using h
    · simp only [createEvent, hfind, ha, Bool.false_eq_true, if_false,
        checkAndCreateAlerts]
      exact applyProposals_dedupInv _ _ _ _ _ h

/-- C1: before creating an alert of kind K for bus B the engine checks for an
unresolved alert of kind K for B and suppresses the duplicate, so ingesting
any sequence of submissions from a store satisfying the invariant never
reaches a state with two unresolved alerts of the same kind for one bus. -/
theorem c1_at_most_one_unresolved (cfg : AlertConfig) (st : SysState)
    (subs : List Submission) (h : dedupInv st.alerts) :
    dedupInv (ingestAll cfg st subs).alerts := by
  induction subs generalizing st with
  | nil => simpa [ingestAll] using h
  | cons sub rest ih =>
    simp only [ingestAll]
    exact ih _ (createEvent_dedupInv cfg st sub h)

/-- Witness for C1: three identical dirty submissions for the fixture bus
leave at most one unresolved alert per kind. -/
theorem c1_at_most_one_unresolved_witness :
    unresolvedCount (ingestAll defaultConfig demoState [demoSub, demoSub, demoSub]).alerts
        1 AlertTipo.muy_sucio ≤ 1 ∧
    unresolvedCount (ingestAll defaultConfig demoState [demoSub, demoSub, demoSub]).alerts
        1 AlertTipo.repetido ≤ 1 :=
  ⟨c1_at_most_one_unresolved defaultConfig demoState [demoSub, demoSub, demoSub]
      (fun b t => by simp [unresolvedCount, demoState]) 1 AlertTipo.muy_sucio,
   c1_at_most_one_unresolved defaultConfig demoState [demoSub, demoSub, demoSub]
      (fun b t => by simp [unresolvedCount, demoState]) 1 AlertTipo.repetido⟩
